import Mathlib

/-!
A shallow embedding of the mwclient ImageMagick wrapper
(pkg/mwclient/client.go of torpago/simple-media-proc).

The native ImageMagick engine is modelled as an oracle: a record of
success flags and reported values for each engine call a client
operation can make (decode, auto-orient, resize, set quality, set
format, encode, write).  Each client operation is translated from the
Go source as a pure function from its arguments and the oracle to an
outcome recording the returned error (if any), the ordered list of
calls that were made, and the file or stream writes that succeeded.

Machine integers are modelled as Nat and Int with explicit reduction
modulo powers of two at every Go conversion point: Go int32
arithmetic wraps, Go integer division truncates toward zero, and
conversions between signed and unsigned types reinterpret the two
complement representation.  Division by zero is total in Lean (it
yields zero) whereas Go would panic; theorems that depend on a
division carry a positivity hypothesis on the divisor.
-/

/-! ### Machine integer conversions (Go semantics) -/

/-- Reduce an integer into the signed 32 bit range, as Go int32 arithmetic does. -/
def wrap32 (x : Int) : Int := (x + 2147483648) % 4294967296 - 2147483648

/-- Go conversion int32(u) of an unsigned value: keep the low 32 bits, two complement. -/
def toInt32 (n : Nat) : Int := wrap32 (n : Int)

/-- Go conversion int32(x) of a signed value. -/
def int32OfInt (x : Int) : Int := wrap32 x

/-- Go int32 multiplication: multiply then wrap. -/
def mul32 (a b : Int) : Int := wrap32 (a * b)

/-- Go int32 division: truncate toward zero, then wrap. -/
def tdiv32 (a b : Int) : Int := wrap32 (Int.tdiv a b)

/-- Go conversion uint(x) of a signed value: two complement reinterpretation in 64 bits. -/
def uintOfInt (x : Int) : Nat := (x % 18446744073709551616).toNat

/-- Reduce an integer into the signed 16 bit range. -/
def wrap16 (x : Int) : Int := (x + 32768) % 65536 - 32768

/-- Go conversion int16(u) of an unsigned value. -/
def toInt16 (n : Nat) : Int := wrap16 (n : Int)

/-- Go conversion int64(u) of an unsigned value. -/
def toInt64 (n : Nat) : Int := (((n : Int) + 9223372036854775808) % 18446744073709551616) - 9223372036854775808

/-- The derived dimension computed by ResizeByHeight and ResizeByWidth:
uint(int32(primaryDim) multiplied by int32(target), divided by int32(otherDim)),
with all three arithmetic steps in Go int32 semantics.  In the source this is
the line targetWidth equals uint(imageWidth times int32(targetHeight) over imageHeight),
and symmetrically for ResizeByWidth. -/
def derivedDim (primaryDim otherDim : Nat) (target : Int) : Nat :=
  uintOfInt (tdiv32 (mul32 (toInt32 primaryDim) (int32OfInt target)) (toInt32 otherDim))

/-- Modelled from the claim wording only, not from the source: rounding of a
fraction a over b to the nearest integer (halves rounding up). -/
def roundNearest (a b : Nat) : Nat := (2 * a + b) / (2 * b)

/-! ### Errors and engine events -/

/-- Errors returned by client operations.  The constructor invalidInput models
an error wrapping ErrInvalidInput, processing models an error wrapping
ErrProcessing, and ioError models the two fmt.Errorf sites that wrap a raw
stream input or output failure without either sentinel error. -/
inductive GoError where
  | invalidInput (msg : String)
  | processing (msg : String)
  | ioError (msg : String)
deriving DecidableEq

/-- True when the error wraps the ErrInvalidInput sentinel. -/
def GoError.isInvalidInput : GoError → Bool
  | .invalidInput _ => true
  | _ => false

/-- True when the error wraps the ErrProcessing sentinel. -/
def GoError.isProcessing : GoError → Bool
  | .processing _ => true
  | _ => false

/-- True when the error wraps one of the two sentinel error kinds. -/
def GoError.wrapsKind (e : GoError) : Bool := e.isInvalidInput || e.isProcessing

/-- Observable calls made by an operation, in program order.  statCheck is the
os.Stat existence pre-check, writeStream is the write to the destination
io.Writer destination; every other constructor is a call into the engine (a wand method). -/
inductive Ev where
  | statCheck (path : String)
  | readImage (path : String)
  | readBlob
  | autoOrient
  | resize (w h : Nat)
  | setQuality (q : Nat)
  | setFormat (f : String)
  | getBlob
  | writeImage (path : String)
  | writeStream
deriving DecidableEq

/-- True when the event is an invocation of the native engine (a wand call). -/
def Ev.isEngine : Ev → Bool
  | .statCheck _ => false
  | .writeStream => false
  | _ => true

/-! ### Data model -/

/-- Image bytes. -/
abbrev Blob := List Nat

/-- The source image as the engine reports it right after a successful decode,
before any auto-orientation: format name, pixel dimensions, EXIF orientation
code, and the content length when the engine can provide one (none models
GetImageLength returning an error). -/
structure SrcImage where
  format : String
  width : Nat
  height : Nat
  orientation : Nat
  length : Option Nat
deriving DecidableEq

/-- A source io.Reader stream: whether io.ReadAll succeeds on it, and its bytes. -/
structure SrcReader where
  ok : Bool
  data : Blob
deriving DecidableEq

/-- A destination io.Writer stream: whether a write to it succeeds.  A failing write
is modelled as writing nothing. -/
structure DstWriter where
  ok : Bool
deriving DecidableEq

/-- Oracle for one single-image operation: the behavior the native engine and
the filesystem exhibit during the call. -/
structure Engine where
  fileExists : String → Bool
  decodeOk : Bool
  image : SrcImage
  autoOrientOk : Bool
  resizeOk : Bool
  qualityOk : Bool
  setFormatOk : Bool
  encodeOk : Bool
  encoded : Blob
  writeFileOk : Bool

/-- Result of one client operation: the returned error (none on success), the
calls made in order, the file paths successfully written through the engine,
and the blobs successfully written to the destination stream. -/
structure Outcome where
  err : Option GoError
  events : List Ev
  fileWrites : List String
  streamWrites : List Blob
deriving DecidableEq

/-- The metadata record returned by OpenImage, with Go field types int32,
int16 and int64 modelled as Int. -/
structure ImageMeta where
  FormatName : String
  ImageWidth : Int
  ImageHeight : Int
  ExifOrientation : Int
  ContentLength : Int
deriving DecidableEq

/-- The zero value of ImageMeta, returned alongside every error. -/
def zeroMeta : ImageMeta := ⟨"", 0, 0, 0, 0⟩

/-- Whether io.ReadAll succeeds on an optional reader (only consulted after
the nil check). -/
def readerOk : Option SrcReader → Bool
  | none => true
  | some r => r.ok

/-- Whether a write to an optional writer succeeds (only consulted after the
nil check). -/
def writerOk : Option DstWriter → Bool
  | none => true
  | some w => w.ok

/-! ### Client operations -/

/-- OpenImage: validate the path, decode, extract metadata, read the content
length (absence tolerated), then auto-orient with the failure ignored.
Metadata is extracted before the auto-orientation call, so the returned
record reflects the image as decoded. -/
def openImage (eng : Engine) (imagePath : String) :
    ImageMeta × Option GoError × List Ev :=
  if imagePath = "" then
    (zeroMeta, some (.invalidInput "image path is empty"), [])
  else if (eng.fileExists imagePath && eng.decodeOk) = false then
    (zeroMeta, some (.processing "failed to read image"), [.readImage imagePath])
  else
    let img := eng.image
    let meta : ImageMeta :=
      ⟨img.format, toInt32 img.width, toInt32 img.height, toInt16 img.orientation,
        match img.length with
        | some cl => toInt64 cl
        | none => 0⟩
    (meta, none, [.readImage imagePath, .autoOrient])

/-- GetImageMetadata is an alias for OpenImage kept for backward compatibility. -/
def getImageMetadata (eng : Engine) (imagePath : String) :
    ImageMeta × Option GoError × List Ev :=
  openImage eng imagePath

/-- ResizeImage: nil check, dimension check, read the source stream, decode,
auto-orient (failure ignored), resize, set quality 95, optionally set the
output format, encode, reject an empty encoding, then write the blob to the
destination stream. -/
def resizeImage (eng : Engine) (rd : Option SrcReader) (wr : Option DstWriter)
    (width height : Nat) (format : String) : Outcome :=
  if rd = none ∨ wr = none then
    ⟨some (.invalidInput "reader or writer is nil"), [], [], []⟩
  else if width = 0 ∨ height = 0 then
    ⟨some (.invalidInput "invalid dimensions"), [], [], []⟩
  else if readerOk rd = false then
    ⟨some (.ioError "failed to read image data"), [], [], []⟩
  else if eng.decodeOk = false then
    ⟨some (.processing "failed to read image"), [.readBlob], [], []⟩
  else if eng.resizeOk = false then
    ⟨some (.processing "failed to resize image"),
      [.readBlob, .autoOrient, .resize width height], [], []⟩
  else if eng.qualityOk = false then
    ⟨some (.processing "failed to set compression quality"),
      [.readBlob, .autoOrient, .resize width height, .setQuality 95], [], []⟩
  else if format ≠ "" ∧ eng.setFormatOk = false then
    ⟨some (.processing "failed to set image format"),
      [.readBlob, .autoOrient, .resize width height, .setQuality 95, .setFormat format], [], []⟩
  else
    let evs := [Ev.readBlob, Ev.autoOrient, Ev.resize width height, Ev.setQuality 95] ++
      (if format = "" then [] else [Ev.setFormat format])
    if eng.encodeOk = false then
      ⟨some (.processing "failed to get image blob"), evs ++ [.getBlob], [], []⟩
    else if eng.encoded = [] then
      ⟨some (.processing "empty result image"), evs ++ [.getBlob], [], []⟩
    else if writerOk wr = false then
      ⟨some (.ioError "failed to write image data"), evs ++ [.getBlob, .writeStream], [], []⟩
    else
      ⟨none, evs ++ [.getBlob, .writeStream], [], [eng.encoded]⟩

/-- ResizeImageFile: validate the two paths only (the source performs no
dimension check here), decode from the input path, auto-orient (failure
ignored), resize, set quality, optionally set the format, and write the
image to the output path through the engine. -/
def resizeImageFile (eng : Engine) (inputPath outputPath : String)
    (width height : Nat) (format : String) : Outcome :=
  if inputPath = "" ∨ outputPath = "" then
    ⟨some (.invalidInput "input or output path is empty"), [], [], []⟩
  else if (eng.fileExists inputPath && eng.decodeOk) = false then
    ⟨some (.processing "failed to read image"), [.readImage inputPath], [], []⟩
  else if eng.resizeOk = false then
    ⟨some (.processing "failed to resize image"),
      [.readImage inputPath, .autoOrient, .resize width height], [], []⟩
  else if eng.qualityOk = false then
    ⟨some (.processing "failed to set compression quality"),
      [.readImage inputPath, .autoOrient, .resize width height, .setQuality 95], [], []⟩
  else if format ≠ "" ∧ eng.setFormatOk = false then
    ⟨some (.processing "failed to set image format"),
      [.readImage inputPath, .autoOrient, .resize width height, .setQuality 95,
        .setFormat format], [], []⟩
  else
    let evs := [Ev.readImage inputPath, Ev.autoOrient, Ev.resize width height,
      Ev.setQuality 95] ++ (if format = "" then [] else [Ev.setFormat format])
    if eng.writeFileOk = false then
      ⟨some (.processing "failed to write image"), evs ++ [.writeImage outputPath], [], []⟩
    else
      ⟨none, evs ++ [.writeImage outputPath], [outputPath], []⟩

/-- ConvertFormat: nil check, empty format check, read the source stream,
decode, auto-orient (failure ignored), set quality, set the output format,
encode, reject an empty encoding, write the blob to the destination. -/
def convertFormat (eng : Engine) (rd : Option SrcReader) (wr : Option DstWriter)
    (format : String) : Outcome :=
  if rd = none ∨ wr = none then
    ⟨some (.invalidInput "reader or writer is nil"), [], [], []⟩
  else if format = "" then
    ⟨some (.invalidInput "format is empty"), [], [], []⟩
  else if readerOk rd = false then
    ⟨some (.ioError "failed to read image data"), [], [], []⟩
  else if eng.decodeOk = false then
    ⟨some (.processing "failed to read image"), [.readBlob], [], []⟩
  else if eng.qualityOk = false then
    ⟨some (.processing "failed to set compression quality"),
      [.readBlob, .autoOrient, .setQuality 95], [], []⟩
  else if eng.setFormatOk = false then
    ⟨some (.processing "failed to set image format"),
      [.readBlob, .autoOrient, .setQuality 95, .setFormat format], [], []⟩
  else if eng.encodeOk = false then
    ⟨some (.processing "failed to get image blob"),
      [.readBlob, .autoOrient, .setQuality 95, .setFormat format, .getBlob], [], []⟩
  else if eng.encoded = [] then
    ⟨some (.processing "empty result image"),
      [.readBlob, .autoOrient, .setQuality 95, .setFormat format, .getBlob], [], []⟩
  else if writerOk wr = false then
    ⟨some (.ioError "failed to write image data"),
      [.readBlob, .autoOrient, .setQuality 95, .setFormat format, .getBlob, .writeStream],
      [], []⟩
  else
    ⟨none,
      [.readBlob, .autoOrient, .setQuality 95, .setFormat format, .getBlob, .writeStream],
      [], [eng.encoded]⟩

/-- ResizeByHeight: validate paths and target height, decode from the input
path (there is no existence pre-check in this operation), auto-orient
(failure ignored), compute the derived width in int32 arithmetic, resize,
set quality, write to the output path. -/
def resizeByHeight (eng : Engine) (inputPath outputPath : String)
    (targetHeight : Int) : Outcome :=
  if inputPath = "" ∨ outputPath = "" then
    ⟨some (.invalidInput "input or output path is empty"), [], [], []⟩
  else if targetHeight ≤ 0 then
    ⟨some (.invalidInput "target height must be positive"), [], [], []⟩
  else if (eng.fileExists inputPath && eng.decodeOk) = false then
    ⟨some (.processing "failed to read image"), [.readImage inputPath], [], []⟩
  else
    let tw := derivedDim eng.image.width eng.image.height targetHeight
    let th := uintOfInt targetHeight
    if eng.resizeOk = false then
      ⟨some (.processing "failed to resize image"),
        [.readImage inputPath, .autoOrient, .resize tw th], [], []⟩
    else if eng.qualityOk = false then
      ⟨some (.processing "failed to set compression quality"),
        [.readImage inputPath, .autoOrient, .resize tw th, .setQuality 95], [], []⟩
    else if eng.writeFileOk = false then
      ⟨some (.processing "failed to write image"),
        [.readImage inputPath, .autoOrient, .resize tw th, .setQuality 95,
          .writeImage outputPath], [], []⟩
    else
      ⟨none,
        [.readImage inputPath, .autoOrient, .resize tw th, .setQuality 95,
          .writeImage outputPath], [outputPath], []⟩

/-- ResizeByWidth: validate paths and target width, check that the input file
exists with os.Stat before touching the engine (this pre-check exists only in
this operation, not in ResizeByHeight), decode, auto-orient (failure
ignored), compute the derived height in int32 arithmetic, resize, set
quality, write to the output path. -/
def resizeByWidth (eng : Engine) (inputPath outputPath : String)
    (targetWidth : Int) : Outcome :=
  if inputPath = "" ∨ outputPath = "" then
    ⟨some (.invalidInput "input or output path is empty"), [], [], []⟩
  else if targetWidth ≤ 0 then
    ⟨some (.invalidInput "target width must be positive"), [], [], []⟩
  else if eng.fileExists inputPath = false then
    ⟨some (.invalidInput "input file does not exist"), [.statCheck inputPath], [], []⟩
  else if eng.decodeOk = false then
    ⟨some (.processing "failed to read image"),
      [.statCheck inputPath, .readImage inputPath], [], []⟩
  else
    let th := derivedDim eng.image.height eng.image.width targetWidth
    let tw := uintOfInt targetWidth
    if eng.resizeOk = false then
      ⟨some (.processing "failed to resize image"),
        [.statCheck inputPath, .readImage inputPath, .autoOrient, .resize tw th], [], []⟩
    else if eng.qualityOk = false then
      ⟨some (.processing "failed to set compression quality"),
        [.statCheck inputPath, .readImage inputPath, .autoOrient, .resize tw th,
          .setQuality 95], [], []⟩
    else if eng.writeFileOk = false then
      ⟨some (.processing "failed to write image"),
        [.statCheck inputPath, .readImage inputPath, .autoOrient, .resize tw th,
          .setQuality 95, .writeImage outputPath], [], []⟩
    else
      ⟨none,
        [.statCheck inputPath, .readImage inputPath, .autoOrient, .resize tw th,
          .setQuality 95, .writeImage outputPath], [outputPath], []⟩

/-! ### Path helpers (Go stdlib semantics) -/

/-- Scanner for the extension: walk the reversed path, stopping at a path
separator; on the final dot return the dot followed by the suffix collected
so far.  This mirrors the backward scan in Go filepath.Ext. -/
def extLoop : List Char → List Char → List Char
  | [], _ => []
  | c :: rest, acc =>
    if c = '/' then []
    else if c = '.' then '.' :: acc
    else extLoop rest (c :: acc)

/-- Go filepath.Ext: the suffix beginning at the final dot in the final
slash-separated element of the path, empty if there is no dot. -/
def filepathExt (p : String) : String := String.mk (extLoop p.data.reverse [])

/-- Go strings.TrimSuffix: remove the given suffix when present, otherwise
return the string unchanged. -/
def trimSuffix (s sfx : String) : String :=
  if sfx.data.isSuffixOf s.data then String.mk (s.data.take (s.data.length - sfx.data.length))
  else s

/-! ### The PDF conversion pipeline -/

/-- Oracle for one ConvertPdfToImages call: filesystem and engine behavior,
including a per-page success flag for each engine step inside the loop. -/
structure PdfEngine where
  fileExists : String → Bool
  setResolutionOk : Bool
  decodeOk : Bool
  totalPages : Nat
  addImageOk : Nat → Bool
  pageWidth : Nat → Nat
  pageHeight : Nat → Nat
  pageResizeOk : Nat → Bool
  pageQualityOk : Nat → Bool
  pageWriteOk : Nat → Bool
  montageQualityOk : Bool
  montageWriteOk : Bool

/-- Result of ConvertPdfToImages: the returned error, the zero-based indices
of the pages the loop iterated, and the output paths successfully written. -/
structure PdfOutcome where
  err : Option GoError
  iterated : List Nat
  fileWrites : List String
deriving DecidableEq

/-- Number of loop iterations: totalPages, truncated to maxPages when
maxPages is positive and smaller, exactly as in the source guard
maxPages greater than zero and int(numPages) greater than maxPages. -/
def effectivePages (maxPages : Int) (total : Nat) : Nat :=
  if 0 < maxPages ∧ maxPages < (total : Int) then maxPages.toNat else total

/-- Per-page output path in the non-montage branch: when more than one page
is in range, insert the page number (one-based) between the base of the
output path and its extension; with a single page use the path unchanged. -/
def pagePath (outputPath : String) (numPages : Nat) (i : Nat) : String :=
  if 1 < numPages then
    trimSuffix outputPath (filepathExt outputPath) ++ "_page" ++ toString (i + 1) ++
      filepathExt outputPath
  else outputPath

/-- One iteration of the page loop, returning the path written for this page
if the write happened.  An AddImage failure skips the page; in montage mode
the page is only accumulated; a resize failure skips the rest of the page; a
quality failure is logged but does not stop the page; a write failure is
logged and produces no file.  All of these failures leave the loop running. -/
def processPage (eng : PdfEngine) (outputPath : String) (numPages : Nat)
    (createMontage : Bool) (i : Nat) : Option String :=
  if eng.addImageOk i = false then none
  else if createMontage then none
  else if eng.pageResizeOk i = false then none
  else if eng.pageWriteOk i = false then none
  else some (pagePath outputPath numPages i)

/-- ConvertPdfToImages: validate paths and target height, check the input
file exists, set the rasterization density, decode the PDF, truncate the
page range by maxPages, run the page loop (per-page failures logged, never
fatal), and in montage mode compose and write the single montage image,
whose write failure alone is fatal. -/
def convertPdfToImages (eng : PdfEngine) (inputPath outputPath : String)
    (maxPages targetHeight : Int) (createMontage : Bool) : PdfOutcome :=
  if inputPath = "" ∨ outputPath = "" then
    ⟨some (.invalidInput "input or output path is empty"), [], []⟩
  else if targetHeight ≤ 0 then
    ⟨some (.invalidInput "target height must be positive"), [], []⟩
  else if eng.fileExists inputPath = false then
    ⟨some (.invalidInput "input file does not exist"), [], []⟩
  else if eng.setResolutionOk = false then
    ⟨some (.processing "could not set resolution"), [], []⟩
  else if eng.decodeOk = false then
    ⟨some (.processing "failed to read PDF"), [], []⟩
  else
    let numPages := effectivePages maxPages eng.totalPages
    let iterated := List.range numPages
    let pageWrites := iterated.filterMap (processPage eng outputPath numPages createMontage)
    if createMontage then
      if eng.montageWriteOk = false then
        ⟨some (.processing "failed to write montage image"), iterated, pageWrites⟩
      else
        ⟨none, iterated, pageWrites ++ [outputPath]⟩
    else
      ⟨none, iterated, pageWrites⟩

/-! ### Concrete engine behaviors used as inputs -/

/-- An engine where every call succeeds and every file exists; the image is a
JPEG of 1000 by 500 pixels with EXIF orientation 6 and no content length. -/
def engJpeg : Engine :=
  ⟨fun _ => true, true, ⟨"JPEG", 1000, 500, 6, none⟩, true, true, true, true, true, [1], true⟩

/-- An all-success engine whose image is 1000 by 500 pixels. -/
def engScenario : Engine :=
  ⟨fun _ => true, true, ⟨"PNG", 1000, 500, 1, none⟩, true, true, true, true, true, [1], true⟩

/-- An all-success engine whose image is 3 by 2 pixels. -/
def engSmall : Engine :=
  ⟨fun _ => true, true, ⟨"PNG", 3, 2, 1, none⟩, true, true, true, true, true, [1], true⟩

/-- An engine for which no file exists; every other call succeeds. -/
def engNoFile : Engine :=
  ⟨fun _ => false, true, ⟨"PNG", 10, 10, 1, none⟩, true, true, true, true, true, [1], true⟩

/-- An engine whose resize call fails; everything else succeeds. -/
def engResizeFail : Engine :=
  ⟨fun _ => true, true, ⟨"PNG", 10, 10, 1, none⟩, true, false, true, true, true, [1], true⟩

/-- A reader whose io.ReadAll fails. -/
def rdFail : SrcReader := ⟨false, []⟩

/-- A writer that accepts writes. -/
def wrGood : DstWriter := ⟨true⟩

/-- A three page PDF engine where every per-page write and the montage write
fail, while everything else succeeds. -/
def pengPageFail : PdfEngine :=
  ⟨fun _ => true, true, true, 3, fun _ => true, fun _ => 100, fun _ => 200,
    fun _ => true, fun _ => true, fun _ => false, true, false⟩

/-- A three page PDF engine where every call succeeds. -/
def pengThree : PdfEngine :=
  ⟨fun _ => true, true, true, 3, fun _ => true, fun _ => 100, fun _ => 200,
    fun _ => true, fun _ => true, fun _ => true, true, true⟩


/-! ### Arithmetic facts about the Go int32 computation -/

theorem wrap32_eq_of_range (x : Int) (h1 : -2147483648 ≤ x) (h2 : x < 2147483648) :
    wrap32 x = x := by
  unfold wrap32
  rw [Int.emod_eq_of_lt (by omega) (by omega)]
  omega

theorem toInt32_eq (n : Nat) (h : n < 2147483648) : toInt32 n = (n : Int) :=
  wrap32_eq_of_range _ (by omega) (by omega)

theorem toInt16_eq (n : Nat) (h : n < 32768) : toInt16 n = (n : Int) := by
  unfold toInt16 wrap16
  rw [Int.emod_eq_of_lt (by omega) (by omega)]
  omega

theorem natCast_tdiv (m n : Nat) : Int.tdiv (m : Int) (n : Int) = ((m / n : Nat) : Int) := rfl

theorem uintOfInt_natCast (n : Nat) (h : n < 18446744073709551616) :
    uintOfInt (n : Int) = n := by
  unfold uintOfInt
  rw [Int.emod_eq_of_lt (by omega) (by omega)]
  simp

/-- With all quantities inside the signed 32 bit range and no overflow of the
product, the derived dimension is the floor of primary times target over other:
Go integer division truncates, it does not round to nearest. -/
theorem derivedDim_eq (w h t : Nat) (hh : 0 < h) (ht : 0 < t)
    (hwt : w * t < 2147483648) (hh31 : h < 2147483648) (ht31 : t < 2147483648) :
    derivedDim w h (t : Int) = w * t / h := by
  have hle := Nat.le_mul_of_pos_right w ht
  have hw31 : w < 2147483648 := by omega
  have hdle := Nat.div_le_self (w * t) h
  unfold derivedDim toInt32 int32OfInt mul32 tdiv32
  rw [wrap32_eq_of_range (w : Int) (by omega) (by omega),
    wrap32_eq_of_range (t : Int) (by omega) (by omega),
    wrap32_eq_of_range (h : Int) (by omega) (by omega)]
  have e3 : (w : Int) * (t : Int) = ((w * t : Nat) : Int) := by push_cast; ring
  have q1 : w * t / h < 2147483648 := Nat.lt_of_le_of_lt hdle hwt
  have q2 : ((w * t / h : Nat) : Int) < 2147483648 := by exact_mod_cast q1
  have q0 : (0 : Int) ≤ ((w * t / h : Nat) : Int) := Int.natCast_nonneg _
  rw [e3, wrap32_eq_of_range ((w * t : Nat) : Int) (by omega) (by omega),
    natCast_tdiv, wrap32_eq_of_range ((w * t / h : Nat) : Int) (by omega) q2]
  exact uintOfInt_natCast _ (by omega)

theorem filterMap_eq_map_of_some {α β : Type} (f : α → Option β) (g : α → β) :
    ∀ l : List α, (∀ a ∈ l, f a = some (g a)) → l.filterMap f = l.map g := by
  intro l
  induction l with
  | nil => intro _; rfl
  | cons a l ih =>
    intro hl
    rw [List.filterMap_cons, hl a (List.mem_cons_self a l), List.map_cons,
      ih (fun x hx => hl x (List.mem_cons_of_mem a hx))]

/-! ### C9 -/

/-- C9: GetImageMetadata returns exactly the same result as OpenImage on
every path and engine behavior; the two operations are interchangeable. -/
theorem getImageMetadata_eq_openImage (eng : Engine) (p : String) :
    getImageMetadata eng p = openImage eng p := rfl

/-! ### C8 -/

/-- C8: on a successful decode, OpenImage returns no error and metadata whose
format, dimensions and EXIF orientation equal the values the engine reports
before auto-orientation, and whose ContentLength stays at its zero default
when the engine cannot provide a content length. -/
theorem openImage_meta_correct (eng : Engine) (p : String)
    (hp : p ≠ "") (hex : eng.fileExists p = true) (hdec : eng.decodeOk = true)
    (hw : eng.image.width < 2147483648) (hh : eng.image.height < 2147483648)
    (ho : eng.image.orientation < 32768) :
    (openImage eng p).2.1 = none ∧
    (openImage eng p).1.FormatName = eng.image.format ∧
    (openImage eng p).1.ImageWidth = (eng.image.width : Int) ∧
    (openImage eng p).1.ImageHeight = (eng.image.height : Int) ∧
    (openImage eng p).1.ExifOrientation = (eng.image.orientation : Int) ∧
    (eng.image.length = none → (openImage eng p).1.ContentLength = 0) := by
  simp only [openImage, hp, hex, hdec]
  refine ⟨by simp, by simp, ?_, ?_, ?_, ?_⟩
  · simp [toInt32_eq _ hw]
  · simp [toInt32_eq _ hh]
  · simp [toInt16_eq _ ho]
  · intro hl; simp [hl]

/-- Witness for C8: a JPEG with EXIF orientation 6 yields ExifOrientation 6,
the source dimensions, and ContentLength zero. -/
theorem openImage_meta_correct_witness :
    (openImage engJpeg "img.jpg").2.1 = none ∧
    (openImage engJpeg "img.jpg").1.ExifOrientation = 6 ∧
    (openImage engJpeg "img.jpg").1.ImageWidth = 1000 ∧
    (openImage engJpeg "img.jpg").1.ImageHeight = 500 ∧
    (openImage engJpeg "img.jpg").1.ContentLength = 0 := by
  have h := openImage_meta_correct engJpeg "img.jpg" (by decide) rfl rfl
    (by decide) (by decide) (by decide)
  exact ⟨h.1, h.2.2.2.2.1, h.2.2.1, h.2.2.2.1, h.2.2.2.2.2 rfl⟩

/-! ### C1 -/

/-- C1 counterexample: with non-empty paths, a positive target height and a
missing input file, ResizeByHeight returns a ProcessingError coming from the
engine read, not an InvalidInput error, and the engine is invoked: there is
no explicit existence check in ResizeByHeight. -/
theorem resizeByHeight_missing_file_counterexample :
    (resizeByHeight engNoFile "in.png" "out.png" 5).err =
      some (GoError.processing "failed to read image") ∧
    GoError.isInvalidInput (GoError.processing "failed to read image") = false ∧
    (resizeByHeight engNoFile "in.png" "out.png" 5).events = [Ev.readImage "in.png"] ∧
    Ev.isEngine (Ev.readImage "in.png") = true := by
  decide

/-- C1 amended: the explicit existence pre-check exists only in ResizeByWidth,
which fails with InvalidInput on a missing input file before any engine call;
ResizeByHeight performs no such check and fails with a ProcessingError from
the engine read. -/
theorem missing_file_check_only_in_resizeByWidth (eng : Engine) (a b : String)
    (n : Int) (h1 : a ≠ "") (h2 : b ≠ "") (h3 : 0 < n)
    (h4 : eng.fileExists a = false) :
    (resizeByWidth eng a b n).err = some (.invalidInput "input file does not exist") ∧
    (resizeByWidth eng a b n).events = [Ev.statCheck a] ∧
    Ev.isEngine (Ev.statCheck a) = false ∧
    (resizeByHeight eng a b n).err = some (.processing "failed to read image") ∧
    (resizeByHeight eng a b n).events = [Ev.readImage a] := by
  have hn : ¬ n ≤ 0 := by omega
  simp [resizeByWidth, resizeByHeight, h1, h2, hn, h4, Ev.isEngine]

/-- Witness for the amended C1 at a concrete missing file. -/
theorem missing_file_check_only_in_resizeByWidth_witness :
    (resizeByWidth engNoFile "p.png" "q.png" 7).err =
      some (.invalidInput "input file does not exist") ∧
    (resizeByWidth engNoFile "p.png" "q.png" 7).events = [Ev.statCheck "p.png"] ∧
    Ev.isEngine (Ev.statCheck "p.png") = false ∧
    (resizeByHeight engNoFile "p.png" "q.png" 7).err =
      some (.processing "failed to read image") ∧
    (resizeByHeight engNoFile "p.png" "q.png" 7).events = [Ev.readImage "p.png"] :=
  missing_file_check_only_in_resizeByWidth engNoFile "p.png" "q.png" 7
    (by decide) (by decide) (by decide) rfl

/-! ### C2 -/

/-- C2 counterexample: for a 3 by 2 image and target height 1, the engine is
asked to resize to width 1 (truncating division), while rounding 3 halves to
the nearest integer gives 2. -/
theorem resize_rounding_counterexample :
    (resizeByHeight engSmall "a.png" "b.png" 1).events =
      [Ev.readImage "a.png", Ev.autoOrient, Ev.resize 1 1, Ev.setQuality 95,
        Ev.writeImage "b.png"] ∧
    roundNearest (3 * 1) 2 = 2 ∧ (1 : Nat) ≠ 2 := by
  decide

/-- C2 amended: within the int32 range and absent overflow, ResizeByHeight
requests width equal to the floor of originalWidth times targetHeight over
originalHeight, and ResizeByWidth requests height equal to the floor of
originalHeight times targetWidth over originalWidth: truncating integer
division, not rounding to nearest. -/
theorem resize_dims_floor (eng : Engine) (a b : String) (t : Nat)
    (h1 : a ≠ "") (h2 : b ≠ "") (h3 : 0 < t) (ht31 : t < 2147483648)
    (hex : eng.fileExists a = true) (hdec : eng.decodeOk = true)
    (hw : 0 < eng.image.width) (hh : 0 < eng.image.height)
    (hwt : eng.image.width * t < 2147483648)
    (hht : eng.image.height * t < 2147483648)
    (hw31 : eng.image.width < 2147483648)
    (hh31 : eng.image.height < 2147483648) :
    Ev.resize (eng.image.width * t / eng.image.height) t ∈
      (resizeByHeight eng a b (t : Int)).events ∧
    Ev.resize t (eng.image.height * t / eng.image.width) ∈
      (resizeByWidth eng a b (t : Int)).events := by
  have hn : ¬ (t : Int) ≤ 0 := by omega
  have e1 : derivedDim eng.image.width eng.image.height (t : Int) =
      eng.image.width * t / eng.image.height :=
    derivedDim_eq _ _ _ hh h3 hwt hh31 ht31
  have e2 : derivedDim eng.image.height eng.image.width (t : Int) =
      eng.image.height * t / eng.image.width :=
    derivedDim_eq _ _ _ hw h3 hht hw31 ht31
  have e3 : uintOfInt (t : Int) = t := uintOfInt_natCast t (by omega)
  refine ⟨?_, ?_⟩
  · cases hr : eng.resizeOk <;> cases hq : eng.qualityOk <;>
      cases hwf : eng.writeFileOk <;>
      simp [resizeByHeight, h1, h2, hn, hex, hdec, hr, hq, hwf, e1, e3]
  · cases hr : eng.resizeOk <;> cases hq : eng.qualityOk <;>
      cases hwf : eng.writeFileOk <;>
      simp [resizeByWidth, h1, h2, hn, hex, hdec, hr, hq, hwf, e2, e3]

/-- Witness for the amended C2: a 1000 by 500 image at target height 100 is
resized to 200 by 100, and at target width 100 to 100 by 50. -/
theorem resize_dims_floor_witness :
    Ev.resize 200 100 ∈ (resizeByHeight engScenario "i.png" "o.png" 100).events ∧
    Ev.resize 100 50 ∈ (resizeByWidth engScenario "i.png" "o.png" 100).events :=
  resize_dims_floor engScenario "i.png" "o.png" 100 (by decide) (by decide)
    (by decide) (by decide) rfl rfl (by decide) (by decide) (by decide) (by decide)
    (by decide) (by decide)

/-! ### C3 -/

/-- C3 counterexample: a failing source stream makes ResizeImage return the
raw wrapped read error, which wraps neither ErrInvalidInput nor
ErrProcessing. -/
theorem error_kinds_counterexample :
    (resizeImage engScenario (some rdFail) (some wrGood) 10 10 "png").err =
      some (GoError.ioError "failed to read image data") ∧
    GoError.wrapsKind (GoError.ioError "failed to read image data") = false := by
  decide

set_option maxHeartbeats 2000000 in
/-- C3 amended: every error returned by the path-based operations OpenImage,
ResizeImageFile, ResizeByHeight, ResizeByWidth and ConvertPdfToImages wraps
one of the two sentinel kinds; ResizeImage and ConvertFormat also wrap one of
the two kinds except for the two stream failure sites, where the raw read or
write error is wrapped without either sentinel. -/
theorem error_kinds_amended :
    (∀ eng p e, (openImage eng p).2.1 = some e → e.wrapsKind = true) ∧
    (∀ eng a b wd ht f e,
      (resizeImageFile eng a b wd ht f).err = some e → e.wrapsKind = true) ∧
    (∀ eng a b n e, (resizeByHeight eng a b n).err = some e → e.wrapsKind = true) ∧
    (∀ eng a b n e, (resizeByWidth eng a b n).err = some e → e.wrapsKind = true) ∧
    (∀ peng a b mp th cm e,
      (convertPdfToImages peng a b mp th cm).err = some e → e.wrapsKind = true) ∧
    (∀ eng rd wr wd ht f e, (resizeImage eng rd wr wd ht f).err = some e →
      e.wrapsKind = true ∨ e = GoError.ioError "failed to read image data" ∨
        e = GoError.ioError "failed to write image data") ∧
    (∀ eng rd wr f e, (convertFormat eng rd wr f).err = some e →
      e.wrapsKind = true ∨ e = GoError.ioError "failed to read image data" ∨
        e = GoError.ioError "failed to write image data") := by
  refine ⟨?_, ?_, ?_, ?_, ?_, ?_, ?_⟩
  · intro eng p e hsome
    unfold openImage at hsome
    repeat' split at hsome
    all_goals (try simp at hsome)
    all_goals (subst hsome; decide)
  · intro eng a b wd ht f e hsome
    unfold resizeImageFile at hsome
    repeat' split at hsome
    all_goals (try simp at hsome)
    all_goals (subst hsome; decide)
  · intro eng a b n e hsome
    unfold resizeByHeight at hsome
    repeat' split at hsome
    all_goals (try simp at hsome)
    all_goals (subst hsome; decide)
  · intro eng a b n e hsome
    unfold resizeByWidth at hsome
    repeat' split at hsome
    all_goals (try simp at hsome)
    all_goals (subst hsome; decide)
  · intro peng a b mp th cm e hsome
    unfold convertPdfToImages at hsome
    repeat' split at hsome
    all_goals (try simp at hsome)
    all_goals (subst hsome; decide)
  · intro eng rd wr wd ht f e hsome
    unfold resizeImage at hsome
    repeat' split at hsome
    all_goals (try simp at hsome)
    all_goals (subst hsome; decide)
  · intro eng rd wr f e hsome
    unfold convertFormat at hsome
    repeat' split at hsome
    all_goals (try simp at hsome)
    all_goals (subst hsome; decide)

/-- Witness for the amended C3: the empty-path error of OpenImage wraps a
sentinel kind. -/
theorem error_kinds_amended_witness :
    GoError.wrapsKind (GoError.invalidInput "image path is empty") = true :=
  error_kinds_amended.1 engScenario "" (GoError.invalidInput "image path is empty") rfl

/-! ### C4 -/

/-- C4 counterexample: ResizeImageFile with width zero and non-empty paths
does not fail with InvalidInput before the engine call; the engine is invoked
and the failure, when the engine rejects the resize, is a ProcessingError. -/
theorem resizeImageFile_zero_width_counterexample :
    (resizeImageFile engResizeFail "in.png" "out.png" 0 100 "png").err =
      some (GoError.processing "failed to resize image") ∧
    GoError.isInvalidInput (GoError.processing "failed to resize image") = false ∧
    Ev.readImage "in.png" ∈
      (resizeImageFile engResizeFail "in.png" "out.png" 0 100 "png").events ∧
    Ev.isEngine (Ev.readImage "in.png") = true := by
  decide

set_option maxHeartbeats 2000000 in
/-- C4 amended: ResizeImageFile validates only that the two paths are
non-empty; it performs no width or height validation, so with any dimensions
(zero included) it invokes the engine read, and every error it returns from
that point wraps ErrProcessing, never InvalidInput. -/
theorem resizeImageFile_no_dim_validation (eng : Engine) (a b : String)
    (wd ht : Nat) (f : String) (h1 : a ≠ "") (h2 : b ≠ "") :
    Ev.readImage a ∈ (resizeImageFile eng a b wd ht f).events ∧
    ∀ e, (resizeImageFile eng a b wd ht f).err = some e → e.isProcessing = true := by
  constructor
  · cases hd : (eng.fileExists a && eng.decodeOk) <;> cases hr : eng.resizeOk <;>
      cases hq : eng.qualityOk <;> cases hsf : eng.setFormatOk <;>
      cases hwf : eng.writeFileOk <;> by_cases hf : f = "" <;>
      simp [resizeImageFile, h1, h2, hd, hr, hq, hsf, hwf, hf]
  · intro e he
    unfold resizeImageFile at he
    repeat' split at he
    all_goals (try simp at he)
    all_goals (first | (subst he; decide) | simp_all)

/-- Witness for the amended C4 with both dimensions zero. -/
theorem resizeImageFile_no_dim_validation_witness :
    Ev.readImage "w.png" ∈ (resizeImageFile engScenario "w.png" "x.png" 0 0 "png").events :=
  (resizeImageFile_no_dim_validation engScenario "w.png" "x.png" 0 0 "png"
    (by decide) (by decide)).1

/-! ### C10 -/

set_option maxHeartbeats 2000000 in
/-- Case characterization of ResizeImage for the stream write property:
either the whole pipeline succeeded and the single write carried the
non-empty encoded blob, or an error was returned and nothing was written. -/
theorem resizeImage_cases (eng : Engine) (rd : Option SrcReader)
    (wr : Option DstWriter) (wd ht : Nat) (f : String) :
    ((resizeImage eng rd wr wd ht f).err = none ∧
      (resizeImage eng rd wr wd ht f).streamWrites = [eng.encoded] ∧
      eng.encoded ≠ []) ∨
    ((resizeImage eng rd wr wd ht f).err.isSome = true ∧
      (resizeImage eng rd wr wd ht f).streamWrites = []) := by
  unfold resizeImage
  repeat' split
  all_goals simp_all

set_option maxHeartbeats 2000000 in
/-- Case characterization of ConvertFormat for the stream write property. -/
theorem convertFormat_cases (eng : Engine) (rd : Option SrcReader)
    (wr : Option DstWriter) (f : String) :
    ((convertFormat eng rd wr f).err = none ∧
      (convertFormat eng rd wr f).streamWrites = [eng.encoded] ∧
      eng.encoded ≠ []) ∨
    ((convertFormat eng rd wr f).err.isSome = true ∧
      (convertFormat eng rd wr f).streamWrites = []) := by
  unfold convertFormat
  repeat' split
  all_goals simp_all

/-- C10: for ResizeImage and ConvertFormat, an error means nothing was
written to the destination stream, and a non-empty stream output means the
whole pipeline succeeded and the single write carried the non-empty encoded
blob. -/
theorem stream_write_only_on_success (eng : Engine) (rd : Option SrcReader)
    (wr : Option DstWriter) (wd ht : Nat) (f g : String) :
    ((resizeImage eng rd wr wd ht f).err.isSome = true →
      (resizeImage eng rd wr wd ht f).streamWrites = []) ∧
    ((resizeImage eng rd wr wd ht f).streamWrites ≠ [] →
      (resizeImage eng rd wr wd ht f).err = none ∧
      (resizeImage eng rd wr wd ht f).streamWrites = [eng.encoded] ∧
      eng.encoded ≠ []) ∧
    ((convertFormat eng rd wr g).err.isSome = true →
      (convertFormat eng rd wr g).streamWrites = []) ∧
    ((convertFormat eng rd wr g).streamWrites ≠ [] →
      (convertFormat eng rd wr g).err = none ∧
      (convertFormat eng rd wr g).streamWrites = [eng.encoded] ∧
      eng.encoded ≠ []) := by
  obtain h1 | h1 := resizeImage_cases eng rd wr wd ht f <;>
    obtain h2 | h2 := convertFormat_cases eng rd wr g <;>
    refine ⟨?_, ?_, ?_, ?_⟩ <;> intro h <;> simp_all

/-- Witness for C10: a nil reader error leaves the destination untouched. -/
theorem stream_write_only_on_success_witness :
    (resizeImage engScenario none (some wrGood) 5 5 "png").streamWrites = [] :=
  (stream_write_only_on_success engScenario none (some wrGood) 5 5 "png" "png").1
    (by decide)

/-! ### C5, C6, C7 -/

/-- C5: once validation and the PDF decode succeed, a non-montage call never
fails, whatever the per-page failures (partial success); in montage mode a
failing montage write makes the call return a ProcessingError. -/
theorem pdf_per_page_nonfatal_montage_fatal (peng : PdfEngine) (a b : String)
    (mp th : Int) (h1 : a ≠ "") (h2 : b ≠ "") (h3 : 0 < th)
    (hex : peng.fileExists a = true) (hres : peng.setResolutionOk = true)
    (hdec : peng.decodeOk = true) :
    (convertPdfToImages peng a b mp th false).err = none ∧
    (peng.montageWriteOk = false →
      (convertPdfToImages peng a b mp th true).err =
        some (GoError.processing "failed to write montage image")) := by
  have hn : ¬ th ≤ 0 := by omega
  constructor
  · simp [convertPdfToImages, h1, h2, hn, hex, hres, hdec]
  · intro hm
    simp [convertPdfToImages, h1, h2, hn, hex, hres, hdec, hm]

/-- Witness for C5: with every page write failing the non-montage call still
succeeds, and the failing montage write is fatal. -/
theorem pdf_per_page_nonfatal_montage_fatal_witness :
    (convertPdfToImages pengPageFail "in.pdf" "out.png" 0 100 false).err = none ∧
    (convertPdfToImages pengPageFail "in.pdf" "out.png" 0 100 true).err =
      some (GoError.processing "failed to write montage image") := by
  have h := pdf_per_page_nonfatal_montage_fatal pengPageFail "in.pdf" "out.png" 0 100
    (by decide) (by decide) (by decide) rfl rfl rfl
  exact ⟨h.1, h.2 rfl⟩

/-- C6: the page loop iterates exactly the pages zero up to effectivePages,
which is the minimum of maxPages and the total page count when maxPages is
positive, and the total page count when maxPages is zero or negative. -/
theorem pdf_page_truncation (peng : PdfEngine) (a b : String) (mp th : Int)
    (cm : Bool) (h1 : a ≠ "") (h2 : b ≠ "") (h3 : 0 < th)
    (hex : peng.fileExists a = true) (hres : peng.setResolutionOk = true)
    (hdec : peng.decodeOk = true) :
    (convertPdfToImages peng a b mp th cm).iterated =
      List.range (effectivePages mp peng.totalPages) ∧
    (0 < mp → effectivePages mp peng.totalPages = min mp.toNat peng.totalPages) ∧
    (mp ≤ 0 → effectivePages mp peng.totalPages = peng.totalPages) := by
  have hn : ¬ th ≤ 0 := by omega
  refine ⟨?_, ?_, ?_⟩
  · cases cm <;> cases hm : peng.montageWriteOk <;>
      simp [convertPdfToImages, h1, h2, hn, hex, hres, hdec, hm]
  · intro h
    unfold effectivePages
    split <;> rename_i hc <;> omega
  · intro h
    unfold effectivePages
    split <;> rename_i hc <;> omega

/-- Witness for C6: on a three page PDF with maxPages two, pages zero and one
are iterated. -/
theorem pdf_page_truncation_witness :
    (convertPdfToImages pengThree "in.pdf" "out.png" 2 100 false).iterated = [0, 1] := by
  have h := pdf_page_truncation pengThree "in.pdf" "out.png" 2 100 false (by decide)
    (by decide) (by decide) rfl rfl rfl
  rw [h.1]
  decide

/-- C7: with every per-page call succeeding in non-montage mode, a single
page in range is written to the requested output path unchanged, and with
more than one page in range page i is written to the path formed by
inserting the page suffix between the base of the output path and its
extension. -/
theorem pdf_page_paths (peng : PdfEngine) (a b : String) (mp th : Int)
    (h1 : a ≠ "") (h2 : b ≠ "") (h3 : 0 < th)
    (hex : peng.fileExists a = true) (hres : peng.setResolutionOk = true)
    (hdec : peng.decodeOk = true)
    (hflags : ∀ i, i < effectivePages mp peng.totalPages →
      peng.addImageOk i = true ∧ peng.pageResizeOk i = true ∧
        peng.pageWriteOk i = true) :
    (effectivePages mp peng.totalPages = 1 →
      (convertPdfToImages peng a b mp th false).fileWrites = [b]) ∧
    (1 < effectivePages mp peng.totalPages →
      (convertPdfToImages peng a b mp th false).fileWrites =
        (List.range (effectivePages mp peng.totalPages)).map
          (fun i => trimSuffix b (filepathExt b) ++ "_page" ++ toString (i + 1) ++
            filepathExt b)) := by
  have hn : ¬ th ≤ 0 := by omega
  have hw : (convertPdfToImages peng a b mp th false).fileWrites =
      (List.range (effectivePages mp peng.totalPages)).filterMap
        (processPage peng b (effectivePages mp peng.totalPages) false) := by
    simp [convertPdfToImages, h1, h2, hn, hex, hres, hdec]
  have hmap : (List.range (effectivePages mp peng.totalPages)).filterMap
        (processPage peng b (effectivePages mp peng.totalPages) false) =
      (List.range (effectivePages mp peng.totalPages)).map
        (fun i => pagePath b (effectivePages mp peng.totalPages) i) := by
    apply filterMap_eq_map_of_some
    intro i hi
    obtain ⟨ha, hr, hwr⟩ := hflags i (List.mem_range.mp hi)
    simp [processPage, ha, hr, hwr]
  constructor
  · intro hone
    rw [hw, hmap, hone]
    simp [pagePath]
  · intro hgt
    rw [hw, hmap]
    simp only [pagePath, if_pos hgt]

/-- Witness for C7: a three page PDF written to out.png produces the three
page-suffixed files. -/
theorem pdf_page_paths_witness :
    (convertPdfToImages pengThree "in.pdf" "out.png" 0 100 false).fileWrites =
      ["out_page1.png", "out_page2.png", "out_page3.png"] := by
  have h := pdf_page_paths pengThree "in.pdf" "out.png" 0 100 (by decide) (by decide)
    (by decide) rfl rfl rfl (fun i _ => ⟨rfl, rfl, rfl⟩)
  rw [h.2 (by decide)]
  decide
